import Mathlib

/-!
Verification of the moodfloo progressive-analysis / live-streaming core.

The frontend (src/frontend) is embedded directly from the JavaScript
source.  The backend core components (Timeline, TimelineBuilder,
StreamHub, BatchAggregator) are not part of the given sources; they are
modelled from the specification, as marked on each such definition.

Conventions of the embedding:
- JavaScript numbers are modelled as rationals (ℚ); no floating-point
  rounding is relevant to any claim considered here.
- A JSON object literal is modelled as an ordered list of key/value
  pairs, so "no other fields" is expressible structurally.
- Side effects (messages sent over the socket, events emitted to a
  viewer, callbacks fired) are modelled as explicit output lists.
-/

namespace Moodfloo

/-- A JSON value, restricted to the shapes the client actually sends. -/
inductive JValue where
  | str (s : String)
  | num (q : ℚ)
deriving DecidableEq, Repr

/-- A JSON object: an ordered list of field/value pairs.  Modelling the
object as the literal list of fields lets "no other fields" be stated as
an equality of lists. -/
abbrev JObj := List (String × JValue)

/-- The message built by `WebSocketService.seek`:
`JSON.stringify({ type: 'seek', time: time })` (api.js:214-217). -/
def seekMsg (t : ℚ) : JObj := [("type", JValue.str "seek"), ("time", JValue.num t)]

/-- The message built by the keep-alive timer:
`JSON.stringify({ type: 'ping' })` (api.js:187). -/
def pingMsg : JObj := [("type", JValue.str "ping")]

/-- Browser WebSocket ready states.  `opened` stands for the constant
`WebSocket.OPEN` of the source (`open` is a keyword in Lean). -/
inductive ReadyState where
  | connecting
  | opened
  | closing
  | closed
deriving DecidableEq, Repr

/-- The underlying browser socket, reduced to the one field the client
code inspects. -/
structure WSConn where
  readyState : ReadyState
deriving DecidableEq, Repr

/-- State of `WebSocketService` (api.js:109-266).  Callbacks are
identified by opaque numeric ids; `listeners` is the `Map` from event
name to the array of registered callbacks.  `keepAliveInterval` holds
the id of the active `setInterval` timer, if any. -/
structure WebSocketService where
  sessionId : String
  ws : Option WSConn
  reconnectAttempts : Nat
  maxReconnectAttempts : Nat
  listeners : List (String × List Nat)
  keepAliveInterval : Option Nat
deriving DecidableEq, Repr

/-- The guard `this.ws && this.ws.readyState === WebSocket.OPEN` used by
`seek` (api.js:213) and the keep-alive tick (api.js:185). -/
def WebSocketService.wsIsOpen (s : WebSocketService) : Bool :=
  match s.ws with
  | some c => c.readyState = ReadyState.opened
  | none => false

/-- `WebSocketService.seek(time)` (api.js:212-219): if the socket is
open, send exactly the message `{type:'seek', time}`; otherwise do
nothing.  The returned list is the sequence of messages sent by this
call. -/
def WebSocketService.seek (s : WebSocketService) (t : ℚ) : List JObj :=
  if s.wsIsOpen then [seekMsg t] else []

/-- The keep-alive period passed to `setInterval` (api.js:189):
30000 milliseconds. -/
def keepAliveIntervalMs : Nat := 30000

/-- One firing of the keep-alive timer installed by `startKeepAlive`
(api.js:182-190): if the socket is open it sends `{type:'ping'}`,
otherwise nothing; it reads but never modifies the service state.  The
result is the (unchanged) state paired with the messages sent. -/
def WebSocketService.keepAliveTick (s : WebSocketService) :
    WebSocketService × List JObj :=
  if s.wsIsOpen then (s, [pingMsg]) else (s, [])

/-- `stopKeepAlive` (api.js:192-197): clears the timer and nulls the
handle. -/
def WebSocketService.stopKeepAlive (s : WebSocketService) : WebSocketService :=
  { s with keepAliveInterval := none }

/-- `attemptReconnect` (api.js:199-207): schedules a reconnect after
`2000 * (reconnectAttempts+1)` ms when
`reconnectAttempts < maxReconnectAttempts && maxReconnectAttempts > 0`,
incrementing the counter; otherwise schedules nothing.  Returns the
updated state and the scheduled delay, if any. -/
def WebSocketService.attemptReconnect (s : WebSocketService) :
    WebSocketService × Option Nat :=
  if s.reconnectAttempts < s.maxReconnectAttempts ∧ 0 < s.maxReconnectAttempts then
    ({ s with reconnectAttempts := s.reconnectAttempts + 1 },
      some (2000 * (s.reconnectAttempts + 1)))
  else (s, none)

/-- `emit(event, data)` (api.js:247-251): the callbacks fired for an
event are exactly the ones registered under that event name, in
registration order. -/
def WebSocketService.emit (s : WebSocketService) (event : String) : List Nat :=
  match s.listeners.find? (fun p => p.1 = event) with
  | some p => p.2
  | none => []

/-- `close()` (api.js:256-265): stops the keep-alive timer, sets
`maxReconnectAttempts` to 0, closes and nulls the socket, and clears the
listener map. -/
def WebSocketService.close (s : WebSocketService) : WebSocketService :=
  { s with
    keepAliveInterval := none
    maxReconnectAttempts := 0
    ws := none
    listeners := [] }

/-- One entry of the locally accumulated timeline in `LiveDashboard`
(LiveDashboard.jsx:203-207): `{ time, energy, category }`. -/
structure TimelineEntry where
  time : ℚ
  energy : ℚ
  category : String
deriving DecidableEq, Repr

/-- The `data` payload of a server `update` event, restricted to the
fields the timeline accumulator reads (LiveDashboard.jsx:200-210). -/
structure UpdateData where
  timeline_length : Nat
  current_energy : ℚ
  current_emotion : String
deriving DecidableEq, Repr

/-- A server `update` event as received by the dashboard listener. -/
structure UpdateEvent where
  time : ℚ
  data : UpdateData
deriving DecidableEq, Repr

/-- The state update performed by the `update` listener
(LiveDashboard.jsx:200-210): copy the previous array and push one new
entry exactly when `data.data.timeline_length > newData.length`. -/
def applyUpdate (prev : List TimelineEntry) (e : UpdateEvent) : List TimelineEntry :=
  if prev.length < e.data.timeline_length then
    prev ++ [⟨e.time, e.data.current_energy, e.data.current_emotion⟩]
  else prev

/-- The local timeline after a sequence of `update` events, starting
from the initial empty state. -/
def applyUpdates (evs : List UpdateEvent) : List TimelineEntry :=
  evs.foldl applyUpdate []

/-- The largest `timeline_length` reported by any event of the
sequence. -/
def maxReportedLength (evs : List UpdateEvent) : Nat :=
  evs.foldl (fun m e => max m e.data.timeline_length) 0

/-- Whether the second character list starts with the first. -/
def charsStartWith : List Char → List Char → Bool
  | [], _ => true
  | _ :: _, [] => false
  | a :: as, b :: bs => a = b && charsStartWith as bs

/-- Whether the first character list occurs contiguously in the
second. -/
def charsContain (sub : List Char) : List Char → Bool
  | [] => sub.isEmpty
  | c :: cs => charsStartWith sub (c :: cs) || charsContain sub cs

/-- JavaScript `String.prototype.includes`: `sub` occurs contiguously in
`s`. -/
def strIncludes (s sub : String) : Bool :=
  charsContain sub.data s.data

/-- The guard pattern `emotion && emotion.includes(sub)` of helpers.js,
where `emotion` may be a string, `null` or `undefined` (both modelled as
`none`). -/
def optIncludes (emotion : Option String) (sub : String) : Bool :=
  match emotion with
  | some s => strIncludes s sub
  | none => false

/-- `getTeamStatusMessage(emotion, energy, volatility)`
(helpers.js:59-154), translated branch for branch. -/
def getTeamStatusMessage (emotion : Option String) (energy volatility : ℚ) : String :=
  if optIncludes emotion "Stressed" ∧ volatility > 7 then
    "High tension with emotional instability — take a break, address concerns directly, consider ending early if needed."
  else if optIncludes emotion "Stressed" ∧ energy > 70 then
    "High stress and high energy detected — slow down, acknowledge pressure, allow time for processing."
  else if energy < 30 ∧ optIncludes emotion "Flat" then
    "Very low energy and disengagement — take a break, switch to interactive format, or reschedule if possible."
  else if energy < 40 then
    if optIncludes emotion "Thoughtful" then
      "Focused but energy dipping — keep discussion deep but add energy breaks, rotate speakers."
    else
      "Energy drifting down — keep answers short, add movement breaks, rotate voices."
  else if energy > 80 then
    "Very high energy — harness momentum but watch for burnout, schedule breaks proactively."
  else if volatility > 8 then
    "Extreme emotional shifts — pause for team check-in, acknowledge tension, slow the pace significantly."
  else if volatility > 6.5 then
    if optIncludes emotion "Volatile" then
      "Unstable emotional patterns — create structure, clarify objectives, allow processing time."
    else
      "High emotional variability detected — pause for alignment, check if everyone is on the same page."
  else if optIncludes emotion "Stressed" then
    if energy < 50 then
      "Tension with low energy — address concerns gently, provide reassurance, consider lighter topics."
    else
      "Tension rising — acknowledge concerns explicitly, create space for questions and feedback."
  else if optIncludes emotion "Flat" then
    if volatility > 5 then
      "Disengaged with some fluctuation — re-engage with direct questions, change activity type."
    else
      "Low engagement detected — change format, invite participation, add visual/interactive elements."
  else if optIncludes emotion "Volatile" then
    if energy > 60 then
      "High energy but unstable — create clear structure, set boundaries, focus on concrete next steps."
    else
      "Emotional instability detected — ground the discussion with facts, clarify expectations, check understanding."
  else if optIncludes emotion "Thoughtful" ∨ optIncludes emotion "Constructive" then
    if energy > 60 ∧ volatility < 5 then
      "Excellent! Team is engaged, focused and stable — maintain current approach, this is productive time."
    else if volatility > 5 then
      "Thoughtful but some tension — allow space for diverse views, summarize key points for alignment."
    else
      "Constructive discussion underway — maintain focused pace, encourage deep thinking, watch time."
  else if optIncludes emotion "Energised" then
    if volatility < 4 then
      "Great energy and stability — excellent conditions! Keep the momentum, maximize productivity."
    else if volatility < 6 then
      "High positive energy — good engagement! Channel into concrete outcomes, track action items."
    else
      "High energy with some volatility — maintain enthusiasm but add structure to keep focused."
  else if energy ≥ 45 ∧ energy ≤ 70 ∧ volatility < 5.5 then
    "Team is engaged and balanced — maintain current energy and pace, this is productive."
  else if energy ≥ 40 ∧ energy < 60 ∧ volatility < 6 then
    "Stable moderate engagement — good for detailed work, consider energizing break if meeting is long."
  else if volatility > 5.5 then
    "Mixed signals detected — check in with team, ensure clarity on objectives and next steps."
  else
    "Monitoring team mood — stable conditions, continue as planned with awareness of energy levels."

/-- Modelled from the spec: the five emotion categories of §3 (the
backend core is not among the given sources). -/
inductive EmotionLabel where
  | energised
  | stressedTense
  | flatDisengaged
  | thoughtfulConstructive
  | volatileUnstable
deriving DecidableEq, Repr

/-- Modelled from the spec: a Frame, the immutable value of §3
`{ time, energy, emotionLabel, volatilityContribution }`. -/
structure Frame where
  time : ℚ
  energy : ℚ
  emotionLabel : EmotionLabel
  volatilityContribution : ℚ
deriving DecidableEq, Repr

/-- Modelled from the spec: BuilderState of §3, one of Running,
Completed, Failed, Cancelled. -/
inductive BuilderState where
  | running
  | completed
  | failed
  | cancelled
deriving DecidableEq, Repr

/-- A state other than `running` is terminal (§3: all transitions leave
`Running` and all targets are terminal). -/
def BuilderState.isTerminal (st : BuilderState) : Bool :=
  st ≠ BuilderState.running

/-- Modelled from the spec: the Timeline of §3/§4.1, an append-only
time-ordered store of frames. -/
structure Timeline where
  frames : List Frame
deriving DecidableEq, Repr

/-- The error of a rejected append (§7). -/
inductive TimelineError where
  | outOfOrderFrame
deriving DecidableEq, Repr

/-- Modelled from the spec: `Timeline.append(frame)` (§4.1) fails with
`OutOfOrderFrame` if `frame.time <= last.time`, otherwise appends the
frame at the end. -/
def Timeline.append (tl : Timeline) (f : Frame) : Except TimelineError Timeline :=
  match tl.frames.getLast? with
  | some l =>
      if f.time ≤ l.time then Except.error TimelineError.outOfOrderFrame
      else Except.ok ⟨tl.frames ++ [f]⟩
  | none => Except.ok ⟨tl.frames ++ [f]⟩

/-- Modelled from the spec: `Timeline.snapshot()` (§4.1), the ordered
sequence of all frames so far. -/
def Timeline.snapshot (tl : Timeline) : List Frame := tl.frames

/-- The state of the timeline after an attempted append: the new
timeline on success, the unchanged timeline when the append was
rejected. -/
def Timeline.afterAppend (tl : Timeline) (f : Frame) : Timeline :=
  match tl.append f with
  | Except.ok tl2 => tl2
  | Except.error _ => tl

/-- The timeline reached from empty by a sequence of attempted appends
(rejected appends leave the state unchanged). -/
def buildFrom (fs : List Frame) : Timeline :=
  fs.foldl Timeline.afterAppend ⟨[]⟩

/-- Outcome of a point query (§4.1/§7): a frame, `NotYetAvailable`, or
`PastEnd`. -/
inductive FrameAtResult where
  | frame (f : Frame)
  | notYetAvailable
  | pastEnd
deriving DecidableEq, Repr

/-- Modelled from the spec: `Timeline.frameAt(time)` (§4.1) under
builder state `st`: `PastEnd` when the builder is terminal and `time`
exceeds the last frame's time (§8 scenario: a seek past the end of a
completed timeline is `PastEnd` even though earlier frames exist);
otherwise the latest frame with `frame.time <= time`;
`NotYetAvailable` when no such frame exists and the builder is still
`Running`.  In the corner the spec leaves open (terminal builder, no
frame at or before `time`) the model answers `PastEnd`, never a
frame. -/
def Timeline.frameAt (tl : Timeline) (st : BuilderState) (t : ℚ) : FrameAtResult :=
  if st.isTerminal &&
      (match tl.frames.getLast? with
        | some l => decide (l.time < t)
        | none => true) then
    FrameAtResult.pastEnd
  else
    match (tl.frames.filter (fun f => decide (f.time ≤ t))).getLast? with
    | some f => FrameAtResult.frame f
    | none =>
        if st = BuilderState.running then FrameAtResult.notYetAvailable
        else FrameAtResult.pastEnd

/-- Modelled from the spec: `Timeline.rollingWindow(time, windowSeconds)`
(§4.1), all frames with time in the closed interval
`[time - windowSeconds, time]`. -/
def Timeline.rollingWindow (tl : Timeline) (t w : ℚ) : List Frame :=
  tl.frames.filter (fun f => decide (t - w ≤ f.time) && decide (f.time ≤ t))

/-- Mean of `energy` over a list of frames (0 for an empty list). -/
def energyMean (fs : List Frame) : ℚ :=
  if fs.length = 0 then 0
  else (fs.map Frame.energy).sum / fs.length

/-- Modelled from the spec: population variance of `energy` over the
window, defined as 0 when the window has fewer than 2 frames (§4.1). -/
def energyVariance (fs : List Frame) : ℚ :=
  if fs.length < 2 then 0
  else ((fs.map (fun f => (f.energy - energyMean fs) ^ 2)).sum) / fs.length

/-- Modelled from the spec: volatility of a window, the standard
deviation of `energy` over it — the non-negative square root of the
variance — and hence 0 when the window has fewer than 2 frames
(§4.1). -/
noncomputable def volatility (fs : List Frame) : ℝ :=
  Real.sqrt (energyVariance fs : ℚ)

/-- Strict time order on frames is transitive (used to pass between
`Chain'` and `Pairwise`). -/
instance : IsTrans Frame (fun a b => a.time < b.time) :=
  ⟨fun _ _ _ h1 h2 => lt_trans h1 h2⟩

/-- The §8 scenario frames: times 0, 5, 10 with energies 3, 8, 2. -/
def scenarioFrames : List Frame :=
  [⟨0, 3, EmotionLabel.energised, 0⟩,
   ⟨5, 8, EmotionLabel.stressedTense, 0⟩,
   ⟨10, 2, EmotionLabel.flatDisengaged, 0⟩]

/-- Modelled from the spec: the per-viewer cursor of §3/§4.4 — at most
one pending one-shot waiter (the time of the latest unanswered
seek). -/
structure ViewerState where
  pendingSeek : Option ℚ
deriving DecidableEq, Repr

/-- Events the hub pushes to one viewer (§6): an informational `status`
message or an `update` answering the seek at the given time. -/
inductive HubEvent where
  | statusMsg
  | update (t : ℚ)
deriving DecidableEq, Repr

/-- Whether a hub event is an `update`. -/
def HubEvent.isUpdate : HubEvent → Bool
  | HubEvent.update _ => true
  | HubEvent.statusMsg => false

/-- The number of `update` events in a list of hub events. -/
def countUpdates (evs : List HubEvent) : Nat :=
  (evs.filter HubEvent.isUpdate).length

/-- Modelled from the spec: `onSeek` (§4.4): an answerable seek is
answered with one `update` at once; a `NotYetAvailable` seek replies
with a `status` event and registers the seek time as the (sole) pending
waiter, replacing any previous one, which is silently dropped. -/
def onSeek (v : ViewerState) (tl : Timeline) (st : BuilderState) (t : ℚ) :
    ViewerState × List HubEvent :=
  match tl.frameAt st t with
  | FrameAtResult.frame _ => (⟨none⟩, [HubEvent.update t])
  | FrameAtResult.notYetAvailable => (⟨some t⟩, [HubEvent.statusMsg])
  | FrameAtResult.pastEnd => (⟨none⟩, [HubEvent.statusMsg])

/-- Modelled from the spec: the wake step run for one viewer when the
builder appends a frame (§4.1 wake mechanism, §4.4 one-shot waiter):
if the viewer's pending seek time is at or before the new frame's time,
push exactly one `update` and clear the waiter; otherwise leave the
waiter armed and push nothing. -/
def onAppendWake (v : ViewerState) (f : Frame) : ViewerState × List HubEvent :=
  match v.pendingSeek with
  | some t =>
      if t ≤ f.time then (⟨none⟩, [HubEvent.update t])
      else (⟨some t⟩, [])
  | none => (⟨none⟩, [])

/-- The viewer state and accumulated pushed events after a sequence of
builder appends. -/
def runAppends : ViewerState → List Frame → ViewerState × List HubEvent
  | v, [] => (v, [])
  | v, f :: fs =>
      let step := onAppendWake v f
      let rest := runAppends step.1 fs
      (rest.1, step.2 ++ rest.2)

/-- Modelled from the spec: the per-session completion/fan-out state of
§4.2/§6 — the builder's state together with whether
`BatchAggregator.onTimelineComplete` has been invoked for this
session. -/
structure SessionAgg where
  builderState : BuilderState
  aggregatorInvoked : Bool
deriving DecidableEq, Repr

/-- Modelled from the spec: the handler of the builder's natural
exhaustion signal (§4.2): on a `Running` builder it performs the
`Running → Completed` transition and invokes the BatchAggregator as
part of that one-time transition; on an already-terminal builder (a
retry of the signal) it does nothing and does not invoke the
aggregator.  The boolean result records whether the aggregator was
invoked at this step. -/
def onSourceExhausted (s : SessionAgg) : SessionAgg × Bool :=
  if s.builderState = BuilderState.running then
    (⟨BuilderState.completed, true⟩, true)
  else (s, false)

/-- The session state and the number of aggregator invocations after
`n` (possibly retried) exhaustion signals from the builder. -/
def runExhausted : SessionAgg → Nat → SessionAgg × Nat
  | s, 0 => (s, 0)
  | s, n + 1 =>
      let step := onSourceExhausted s
      let rest := runExhausted step.1 n
      (rest.1, (if step.2 then 1 else 0) + rest.2)

/-- C1: for every time value t, `seek(t)` with the connection open sends
exactly one JSON message `{"type":"seek","time":t}` with no other
fields; with the connection not open it sends nothing (and, being a
total function of the state, cannot throw). -/
theorem seek_sends_exactly_one_seek_message (s : WebSocketService) (t : ℚ) :
    (s.wsIsOpen = true → s.seek t = [[("type", JValue.str "seek"), ("time", JValue.num t)]]) ∧
    (s.wsIsOpen = false → s.seek t = []) := by
  constructor
  · intro h
    simp [WebSocketService.seek, h, seekMsg]
  · intro h
    simp [WebSocketService.seek, h]

/-- Witness for C1 at a concrete open state and a concrete closed
state. -/
theorem seek_sends_exactly_one_seek_message_witness :
    (WebSocketService.mk "s1" (some ⟨ReadyState.opened⟩) 0 5 [] none).seek (7/2) =
      [[("type", JValue.str "seek"), ("time", JValue.num (7/2))]] ∧
    (WebSocketService.mk "s1" none 0 5 [] none).seek (7/2) = [] := by
  refine ⟨?_, ?_⟩
  · exact (seek_sends_exactly_one_seek_message
      (WebSocketService.mk "s1" (some ⟨ReadyState.opened⟩) 0 5 [] none) (7/2)).1 (by decide)
  · exact (seek_sends_exactly_one_seek_message
      (WebSocketService.mk "s1" none 0 5 [] none) (7/2)).2 (by decide)

/-- C7: a firing of the keep-alive timer sends only the exact message
`{"type":"ping"}` with no other fields — one copy when the connection is
open and nothing otherwise — the timer period is fixed at 30 seconds,
and the tick leaves the whole client state (in particular any playback
or cursor state) unchanged. -/
theorem keepalive_sends_only_ping (s : WebSocketService) :
    (s.keepAliveTick.1 = s) ∧
    (s.wsIsOpen = true → s.keepAliveTick.2 = [[("type", JValue.str "ping")]]) ∧
    (s.wsIsOpen = false → s.keepAliveTick.2 = []) ∧
    keepAliveIntervalMs = 30000 := by
  refine ⟨?_, ?_, ?_, rfl⟩
  · by_cases h : s.wsIsOpen <;> simp [WebSocketService.keepAliveTick, h]
  · intro h
    simp [WebSocketService.keepAliveTick, h, pingMsg]
  · intro h
    simp [WebSocketService.keepAliveTick, h]

/-- Witness for C7 at a concrete open state. -/
theorem keepalive_sends_only_ping_witness :
    (WebSocketService.mk "s1" (some ⟨ReadyState.opened⟩) 0 5
        [("ready", [1])] (some 9)).keepAliveTick.2 =
      [[("type", JValue.str "ping")]] :=
  (keepalive_sends_only_ping
    (WebSocketService.mk "s1" (some ⟨ReadyState.opened⟩) 0 5
      [("ready", [1])] (some 9))).2.1 (by decide)

/-- C9: after `close()`, `attemptReconnect` schedules nothing (because
`maxReconnectAttempts` is 0), the keep-alive timer handle is cleared,
and the listener map is empty, so `emit` fires no callback for any
event. -/
theorem close_prevents_reconnect_and_silences_listeners
    (s : WebSocketService) :
    (s.close.attemptReconnect = (s.close, none)) ∧
    s.close.maxReconnectAttempts = 0 ∧
    s.close.keepAliveInterval = none ∧
    s.close.listeners = [] ∧
    (∀ event : String, s.close.emit event = []) := by
  refine ⟨?_, rfl, rfl, rfl, ?_⟩
  · simp [WebSocketService.close, WebSocketService.attemptReconnect]
  · intro event
    simp [WebSocketService.close, WebSocketService.emit]

/-- Folding the listener from any state bounded by the running maximum
stays bounded by the final running maximum. -/
theorem applyUpdate_foldl_length_le (evs : List UpdateEvent) :
    ∀ (init : List TimelineEntry) (m : Nat), init.length ≤ m →
      (evs.foldl applyUpdate init).length ≤
        evs.foldl (fun a e => max a e.data.timeline_length) m := by
  induction evs with
  | nil => intro init m h; simpa using h
  | cons e rest ih =>
    intro init m h
    simp only [List.foldl_cons]
    apply ih
    by_cases hc : init.length < e.data.timeline_length
    · simp only [applyUpdate, if_pos hc, List.length_append, List.length_cons,
        List.length_nil]
      omega
    · simp only [applyUpdate, if_neg hc]
      omega

/-- C8: each `update` event grows the local timeline by at most one
entry, an entry is appended exactly when the event's
`timeline_length` strictly exceeds the current local length, and over
any event sequence the local length never exceeds the maximum
`timeline_length` reported so far. -/
theorem dashboard_timeline_bounded_by_reported :
    (∀ (prev : List TimelineEntry) (e : UpdateEvent),
      ((applyUpdate prev e).length = prev.length + 1 ∧
          prev.length < e.data.timeline_length) ∨
      ((applyUpdate prev e).length = prev.length ∧
          ¬ prev.length < e.data.timeline_length)) ∧
    (∀ (prev : List TimelineEntry) (e : UpdateEvent),
      prev.length < e.data.timeline_length →
        applyUpdate prev e =
          prev ++ [⟨e.time, e.data.current_energy, e.data.current_emotion⟩]) ∧
    (∀ evs : List UpdateEvent,
      (applyUpdates evs).length ≤ maxReportedLength evs) := by
  refine ⟨?_, ?_, ?_⟩
  · intro prev e
    by_cases hc : prev.length < e.data.timeline_length
    · left
      simp [applyUpdate, hc]
    · right
      simp [applyUpdate, hc]
  · intro prev e hc
    simp [applyUpdate, hc]
  · intro evs
    exact applyUpdate_foldl_length_le evs [] 0 (by simp)

/-- An if-then-else between two non-empty strings is non-empty. -/
theorem ite_length_ne_zero (c : Prop) [Decidable c] (a b : String)
    (ha : a.length ≠ 0) (hb : b.length ≠ 0) :
    (if c then a else b).length ≠ 0 := by
  split
  · exact ha
  · exact hb

/-- C10: `getTeamStatusMessage` is total and always returns a non-empty
string; when `emotion` contains "Stressed" and `volatility > 7` it
returns the high-tension break recommendation; and when no earlier
branch matches it falls through to the default monitoring message
(exhibited at the concrete input emotion = none, energy = 75,
volatility = 5, which defeats every earlier guard). -/
theorem getTeamStatusMessage_total_nonempty :
    (∀ (emotion : Option String) (energy volatility : ℚ),
      (getTeamStatusMessage emotion energy volatility).length ≠ 0) ∧
    (∀ (s : String) (energy volatility : ℚ),
      strIncludes s "Stressed" = true → volatility > 7 →
        getTeamStatusMessage (some s) energy volatility =
          "High tension with emotional instability — take a break, address concerns directly, consider ending early if needed.") ∧
    getTeamStatusMessage none 75 5 =
      "Monitoring team mood — stable conditions, continue as planned with awareness of energy levels." := by
  refine ⟨?_, ?_, by norm_num [getTeamStatusMessage, optIncludes]⟩
  · intro emotion energy volatility
    unfold getTeamStatusMessage
    repeat' (first | apply ite_length_ne_zero | decide)
  · intro s energy volatility h hv
    unfold getTeamStatusMessage
    rw [if_pos]
    exact ⟨by simp [optIncludes, h], hv⟩

/-- Witness for C10: the high-tension branch at a concrete emotion
string and volatility 8. -/
theorem getTeamStatusMessage_total_nonempty_witness :
    getTeamStatusMessage (some "🔥 Stressed/Tense") 50 8 =
      "High tension with emotional instability — take a break, address concerns directly, consider ending early if needed." :=
  getTeamStatusMessage_total_nonempty.2.1 "🔥 Stressed/Tense" 50 8
    (by decide) (by norm_num)

/-- Witness for C8 at a concrete event that appends and one that is
ignored. -/
theorem dashboard_timeline_bounded_by_reported_witness :
    applyUpdate [] ⟨2, ⟨1, 6, "⚡ Energised"⟩⟩ = [⟨2, 6, "⚡ Energised"⟩] ∧
    (applyUpdates [⟨2, ⟨1, 6, "⚡ Energised"⟩⟩]).length ≤
      maxReportedLength [⟨2, ⟨1, 6, "⚡ Energised"⟩⟩] :=
  ⟨dashboard_timeline_bounded_by_reported.2.1 [] ⟨2, ⟨1, 6, "⚡ Energised"⟩⟩
      (by decide),
    dashboard_timeline_bounded_by_reported.2.2 [⟨2, ⟨1, 6, "⚡ Energised"⟩⟩]⟩

/-- Attempted appends preserve the strict chain of times. -/
theorem afterAppend_chain' (tl : Timeline) (f : Frame)
    (h : List.Chain' (fun a b : Frame => a.time < b.time) tl.frames) :
    List.Chain' (fun a b : Frame => a.time < b.time) (tl.afterAppend f).frames := by
  unfold Timeline.afterAppend Timeline.append
  cases hl : tl.frames.getLast? with
  | none =>
      simp only []
      rw [List.chain'_append]
      refine ⟨h, List.chain'_singleton f, ?_⟩
      intro x hx
      rw [hl] at hx
      simp at hx
  | some l =>
      by_cases hle : f.time ≤ l.time
      · simp only [if_pos hle]
        exact h
      · simp only [if_neg hle]
        rw [List.chain'_append]
        refine ⟨h, List.chain'_singleton f, ?_⟩
        intro x hx y hy
        rw [hl] at hx
        simp at hx hy
        rw [← hx, ← hy]
        exact lt_of_not_le hle

/-- Folding attempted appends from a chain-ordered timeline yields a
chain-ordered timeline. -/
theorem foldl_afterAppend_chain' (fs : List Frame) :
    ∀ tl : Timeline,
      List.Chain' (fun a b : Frame => a.time < b.time) tl.frames →
      List.Chain' (fun a b : Frame => a.time < b.time)
        (fs.foldl Timeline.afterAppend tl).frames := by
  induction fs with
  | nil => intro tl h; simpa using h
  | cons f rest ih =>
      intro tl h
      simp only [List.foldl_cons]
      exact ih (tl.afterAppend f) (afterAppend_chain' tl f h)

/-- C3: an append whose frame time is not strictly greater than the
last frame's time fails with `OutOfOrderFrame` and leaves the timeline
unchanged; a successful append grows the snapshot by exactly one; and
the snapshot reached by any sequence of attempted appends is strictly
increasing in time (hence has no duplicate times). -/
theorem timeline_append_out_of_order_rejected :
    (∀ (tl : Timeline) (f l : Frame),
      tl.frames.getLast? = some l → f.time ≤ l.time →
        tl.append f = Except.error TimelineError.outOfOrderFrame ∧
        tl.afterAppend f = tl) ∧
    (∀ (tl tl2 : Timeline) (f : Frame),
      tl.append f = Except.ok tl2 →
        tl2.snapshot.length = tl.snapshot.length + 1) ∧
    (∀ fs : List Frame,
      List.Pairwise (fun a b : Frame => a.time < b.time)
        (buildFrom fs).snapshot) := by
  refine ⟨?_, ?_, ?_⟩
  · intro tl f l hl hle
    constructor
    · simp [Timeline.append, hl, hle]
    · simp [Timeline.afterAppend, Timeline.append, hl, hle]
  · intro tl tl2 f h
    unfold Timeline.append at h
    cases hl : tl.frames.getLast? with
    | none =>
        rw [hl] at h
        simp only [Except.ok.injEq] at h
        rw [← h]
        simp [Timeline.snapshot]
    | some l =>
        rw [hl] at h
        by_cases hle : f.time ≤ l.time
        · simp [hle] at h
        · simp only [if_neg hle, Except.ok.injEq] at h
          rw [← h]
          simp [Timeline.snapshot]
  · intro fs
    rw [← List.chain'_iff_pairwise]
    exact foldl_afterAppend_chain' fs ⟨[]⟩ List.chain'_nil

/-- Witness for C3: a concrete rejected append (equal time), a concrete
successful append, and the ordered snapshot of a concrete build. -/
theorem timeline_append_out_of_order_rejected_witness :
    ((⟨[⟨1, 2, EmotionLabel.energised, 0⟩]⟩ : Timeline).append
        ⟨1, 3, EmotionLabel.energised, 0⟩ =
      Except.error TimelineError.outOfOrderFrame) ∧
    ((⟨[⟨1, 2, EmotionLabel.energised, 0⟩]⟩ : Timeline).afterAppend
        ⟨1, 3, EmotionLabel.energised, 0⟩ =
      ⟨[⟨1, 2, EmotionLabel.energised, 0⟩]⟩) ∧
    ((⟨[⟨1, 2, EmotionLabel.energised, 0⟩]⟩ : Timeline).snapshot.length + 1 = 2) ∧
    List.Pairwise (fun a b : Frame => a.time < b.time)
      (buildFrom [⟨0, 3, EmotionLabel.energised, 0⟩,
        ⟨5, 8, EmotionLabel.stressedTense, 0⟩]).snapshot := by
  have h := timeline_append_out_of_order_rejected
  refine ⟨?_, ?_, by simp [Timeline.snapshot], ?_⟩
  · exact (h.1 ⟨[⟨1, 2, EmotionLabel.energised, 0⟩]⟩
      ⟨1, 3, EmotionLabel.energised, 0⟩ ⟨1, 2, EmotionLabel.energised, 0⟩
      (by simp) (by norm_num)).1
  · exact (h.1 ⟨[⟨1, 2, EmotionLabel.energised, 0⟩]⟩
      ⟨1, 3, EmotionLabel.energised, 0⟩ ⟨1, 2, EmotionLabel.energised, 0⟩
      (by simp) (by norm_num)).2
  · exact h.2.2 [⟨0, 3, EmotionLabel.energised, 0⟩,
      ⟨5, 8, EmotionLabel.stressedTense, 0⟩]

/-- In a strictly time-ordered list, every member is the last element
or strictly earlier than it. -/
theorem pairwise_getLast_ge :
    ∀ (L : List Frame),
      List.Pairwise (fun a b : Frame => a.time < b.time) L →
      ∀ (f : Frame), L.getLast? = some f →
        ∀ g ∈ L, g = f ∨ g.time < f.time := by
  intro L
  induction L with
  | nil => intro _ f hf; simp at hf
  | cons a L ih =>
      intro hp f hf g hg
      cases L with
      | nil =>
          simp at hf hg
          rw [hg, hf]
          exact Or.inl rfl
      | cons b L2 =>
          rw [List.getLast?_cons_cons] at hf
          rcases List.mem_cons.mp hg with hga | hgtail
          · right
            rw [hga]
            exact (List.pairwise_cons.mp hp).1 f (List.mem_of_mem_getLast? hf)
          · exact ih (List.pairwise_cons.mp hp).2 f hf g hgtail

/-- C2: a `frameAt` answer of the frame form is a frame of the timeline
with time at most the query time (never a frame with later time), and
in a strictly ordered timeline it is the unique greatest such frame;
`NotYetAvailable` is answered exactly when no frame at or before the
query time exists and the builder is still `Running`; and when the
builder is terminal and the query time exceeds the last frame's time
the answer is `PastEnd`. -/
theorem frameAt_latest_not_after :
    (∀ (tl : Timeline) (st : BuilderState) (t : ℚ) (f : Frame),
      tl.frameAt st t = FrameAtResult.frame f → f ∈ tl.frames ∧ f.time ≤ t) ∧
    (∀ (tl : Timeline) (st : BuilderState) (t : ℚ) (f : Frame),
      List.Pairwise (fun a b : Frame => a.time < b.time) tl.frames →
      tl.frameAt st t = FrameAtResult.frame f →
        ∀ g ∈ tl.frames, g.time ≤ t → g = f ∨ g.time < f.time) ∧
    (∀ (tl : Timeline) (st : BuilderState) (t : ℚ),
      tl.frameAt st t = FrameAtResult.notYetAvailable ↔
        (st = BuilderState.running ∧ ∀ g ∈ tl.frames, t < g.time)) ∧
    (∀ (tl : Timeline) (st : BuilderState) (t : ℚ) (l : Frame),
      st ≠ BuilderState.running → tl.frames.getLast? = some l → l.time < t →
        tl.frameAt st t = FrameAtResult.pastEnd) := by
  refine ⟨?_, ?_, ?_, ?_⟩
  · intro tl st t f h
    unfold Timeline.frameAt at h
    split at h
    · exact absurd h (by simp)
    · cases hg : (tl.frames.filter (fun f => decide (f.time ≤ t))).getLast? with
      | none =>
          rw [hg] at h
          by_cases hr : st = BuilderState.running <;> simp [hr] at h
      | some f2 =>
          rw [hg] at h
          simp at h
          rw [← h]
          have hmem := List.mem_of_mem_getLast? hg
          rw [List.mem_filter] at hmem
          exact ⟨hmem.1, by simpa using hmem.2⟩
  · intro tl st t f hp h g hg hgt
    unfold Timeline.frameAt at h
    split at h
    · exact absurd h (by simp)
    · cases hg2 : (tl.frames.filter (fun f => decide (f.time ≤ t))).getLast? with
      | none =>
          rw [hg2] at h
          by_cases hr : st = BuilderState.running <;> simp [hr] at h
      | some f2 =>
          rw [hg2] at h
          simp at h
          rw [← h]
          have hps : List.Pairwise (fun a b : Frame => a.time < b.time)
              (tl.frames.filter (fun f => decide (f.time ≤ t))) :=
            hp.sublist (List.filter_sublist tl.frames)
          exact pairwise_getLast_ge _ hps f2 hg2 g
            (List.mem_filter.mpr ⟨hg, by simpa using hgt⟩)
  · intro tl st t
    constructor
    · intro h
      unfold Timeline.frameAt at h
      split at h
      · exact absurd h (by simp)
      · cases hg : (tl.frames.filter (fun f => decide (f.time ≤ t))).getLast? with
        | none =>
            rw [hg] at h
            by_cases hr : st = BuilderState.running
            · refine ⟨hr, ?_⟩
              rw [List.getLast?_eq_none_iff] at hg
              intro g hgmem
              by_contra hnot
              have hgm2 : g ∈ tl.frames.filter (fun f => decide (f.time ≤ t)) :=
                List.mem_filter.mpr ⟨hgmem, by simpa using le_of_not_lt hnot⟩
              rw [hg] at hgm2
              simp at hgm2
            · simp [hr] at h
        | some f2 =>
            rw [hg] at h
            simp at h
    · rintro ⟨hrun, hall⟩
      unfold Timeline.frameAt
      have hterm : st.isTerminal = false := by
        simp [BuilderState.isTerminal, hrun]
      have hfil : tl.frames.filter (fun f => decide (f.time ≤ t)) = [] := by
        rw [List.filter_eq_nil_iff]
        intro g hgmem
        simpa using not_le_of_lt (hall g hgmem)
      rw [hterm]
      simp only [Bool.false_and, Bool.false_eq_true, if_neg, not_false_eq_true]
      rw [hfil]
      simp [hrun]
  · intro tl st t l hst hl hlt
    unfold Timeline.frameAt
    have hterm : st.isTerminal = true := by
      simp [BuilderState.isTerminal, hst]
    rw [hterm, hl]
    simp [hlt]

/-- Witness for C2 on the concrete §8 scenario timeline with frames at
times 0, 5, 10: a completed builder answers the query at time 7 with
the frame at time 5 and the query at time 20 with `PastEnd`. -/
theorem frameAt_latest_not_after_witness :
    ((⟨[⟨0, 3, EmotionLabel.energised, 0⟩, ⟨5, 8, EmotionLabel.stressedTense, 0⟩,
        ⟨10, 2, EmotionLabel.flatDisengaged, 0⟩]⟩ : Timeline).frameAt
          BuilderState.completed 20 = FrameAtResult.pastEnd) ∧
    (∀ f : Frame,
      (⟨[⟨0, 3, EmotionLabel.energised, 0⟩, ⟨5, 8, EmotionLabel.stressedTense, 0⟩,
          ⟨10, 2, EmotionLabel.flatDisengaged, 0⟩]⟩ : Timeline).frameAt
            BuilderState.completed 7 = FrameAtResult.frame f →
        f.time ≤ 7) := by
  constructor
  · exact frameAt_latest_not_after.2.2.2
      ⟨[⟨0, 3, EmotionLabel.energised, 0⟩, ⟨5, 8, EmotionLabel.stressedTense, 0⟩,
        ⟨10, 2, EmotionLabel.flatDisengaged, 0⟩]⟩
      BuilderState.completed 20 ⟨10, 2, EmotionLabel.flatDisengaged, 0⟩
      (by simp) (by simp) (by norm_num)
  · intro f hf
    exact (frameAt_latest_not_after.1
      ⟨[⟨0, 3, EmotionLabel.energised, 0⟩, ⟨5, 8, EmotionLabel.stressedTense, 0⟩,
        ⟨10, 2, EmotionLabel.flatDisengaged, 0⟩]⟩
      BuilderState.completed 7 f hf).2

/-- C5: `rollingWindow(t, w)` returns exactly the frames with time in
the closed interval `[t-w, t]`; the volatility of a window is the
standard deviation of its energies — the non-negative square root of
the variance — and is 0 when the window has fewer than 2 frames; and
on the concrete §8 scenario (frames at times 0, 5, 10 with energies
3, 8, 2) `rollingWindow(10, 60)` contains all three frames and averages
their energies to 13/3. -/
theorem rollingWindow_closed_interval :
    (∀ (tl : Timeline) (t w : ℚ) (f : Frame),
      f ∈ tl.rollingWindow t w ↔ f ∈ tl.frames ∧ t - w ≤ f.time ∧ f.time ≤ t) ∧
    (∀ fs : List Frame, fs.length < 2 → volatility fs = 0) ∧
    (∀ fs : List Frame,
      0 ≤ energyVariance fs ∧
      volatility fs ^ 2 = (energyVariance fs : ℝ) ∧ 0 ≤ volatility fs) ∧
    ((Timeline.mk scenarioFrames).rollingWindow 10 60 = scenarioFrames ∧
      energyMean scenarioFrames = 13 / 3) := by
  have hvar : ∀ fs : List Frame, 0 ≤ energyVariance fs := by
    intro fs
    unfold energyVariance
    split
    · exact le_refl 0
    · apply div_nonneg
      · apply List.sum_nonneg
        intro x hx
        rw [List.mem_map] at hx
        obtain ⟨f, _, hfx⟩ := hx
        rw [← hfx]
        exact sq_nonneg _
      · exact_mod_cast Nat.zero_le _
  refine ⟨?_, ?_, ?_, ?_, ?_⟩
  · intro tl t w f
    unfold Timeline.rollingWindow
    rw [List.mem_filter]
    simp [and_assoc]
  · intro fs hlen
    unfold volatility
    rw [show energyVariance fs = 0 from by unfold energyVariance; rw [if_pos hlen]]
    simp
  · intro fs
    refine ⟨hvar fs, ?_, Real.sqrt_nonneg _⟩
    unfold volatility
    exact Real.sq_sqrt (by exact_mod_cast hvar fs)
  · unfold Timeline.rollingWindow scenarioFrames
    simp only [List.filter_cons, List.filter_nil]
    norm_num
  · unfold energyMean scenarioFrames
    norm_num

/-- Witness for C5: the empty window has volatility 0, and a singleton
frame belongs to its own window. -/
theorem rollingWindow_closed_interval_witness :
    volatility [] = 0 ∧
    ((⟨0, 3, EmotionLabel.energised, 0⟩ : Frame) ∈
      (Timeline.mk [⟨0, 3, EmotionLabel.energised, 0⟩]).rollingWindow 0 60) := by
  constructor
  · exact rollingWindow_closed_interval.2.1 [] (by norm_num)
  · exact (rollingWindow_closed_interval.1
      (Timeline.mk [⟨0, 3, EmotionLabel.energised, 0⟩]) 0 60
      ⟨0, 3, EmotionLabel.energised, 0⟩).mpr
      ⟨by simp, by norm_num, by norm_num⟩

/-- Update counting distributes over concatenation of event lists. -/
theorem countUpdates_append (a b : List HubEvent) :
    countUpdates (a ++ b) = countUpdates a + countUpdates b := by
  simp [countUpdates, List.filter_append]

/-- With no pending waiter, no append run ever pushes an update. -/
theorem runAppends_none_no_update (fs : List Frame) :
    countUpdates (runAppends ⟨none⟩ fs).2 = 0 := by
  induction fs with
  | nil => rfl
  | cons f rest ih =>
      simp only [runAppends, onAppendWake]
      simpa [countUpdates] using ih

/-- Any append run pushes at most one update to one viewer. -/
theorem runAppends_le_one (fs : List Frame) :
    ∀ v : ViewerState, countUpdates (runAppends v fs).2 ≤ 1 := by
  induction fs with
  | nil => intro v; simp [runAppends, countUpdates]
  | cons f rest ih =>
      intro v
      cases v with
      | mk p =>
          cases p with
          | none =>
              simp only [runAppends, onAppendWake, List.nil_append]
              rw [runAppends_none_no_update rest]
              exact Nat.zero_le 1
          | some t =>
              by_cases hle : t ≤ f.time
              · simp only [runAppends, onAppendWake, if_pos hle]
                rw [countUpdates_append, runAppends_none_no_update rest]
                simp [countUpdates, HubEvent.isUpdate]
              · simp only [runAppends, onAppendWake, if_neg hle, List.nil_append]
                exact ih ⟨some t⟩

/-- C4: with a pending seek at time `t`, an append run that contains a
frame at or past `t` pushes exactly one `update` (not zero, not more
than one); a single wake step fires exactly at the first satisfying
frame and clears the waiter, so later appends push nothing; and a new
seek that is still `NotYetAvailable` replaces the pending waiter with
the latest seek time, pushing no `update` for the stale one. -/
theorem pending_seek_exactly_one_update :
    (∀ (t : ℚ) (fs : List Frame),
      (∃ f ∈ fs, t ≤ f.time) →
        countUpdates (runAppends ⟨some t⟩ fs).2 = 1) ∧
    (∀ (v : ViewerState) (fs : List Frame),
      countUpdates (runAppends v fs).2 ≤ 1) ∧
    (∀ (t : ℚ) (f : Frame),
      (t ≤ f.time →
        onAppendWake ⟨some t⟩ f = (⟨none⟩, [HubEvent.update t])) ∧
      (¬ t ≤ f.time → onAppendWake ⟨some t⟩ f = (⟨some t⟩, [])) ∧
      onAppendWake ⟨none⟩ f = (⟨none⟩, [])) ∧
    (∀ (v : ViewerState) (tl : Timeline) (st : BuilderState) (t : ℚ),
      tl.frameAt st t = FrameAtResult.notYetAvailable →
        onSeek v tl st t = (⟨some t⟩, [HubEvent.statusMsg])) := by
  refine ⟨?_, fun v fs => runAppends_le_one fs v, ?_, ?_⟩
  · intro t fs
    induction fs with
    | nil => intro h; simp at h
    | cons f rest ih =>
        intro h
        by_cases hle : t ≤ f.time
        · simp only [runAppends, onAppendWake, if_pos hle]
          rw [countUpdates_append, runAppends_none_no_update rest]
          simp [countUpdates, HubEvent.isUpdate]
        · have hrest : ∃ g ∈ rest, t ≤ g.time := by
            rcases h with ⟨g, hg, hgt⟩
            rcases List.mem_cons.mp hg with hgf | hgr
            · exact absurd (hgf ▸ hgt) hle
            · exact ⟨g, hgr, hgt⟩
          simp only [runAppends, onAppendWake, if_neg hle, List.nil_append]
          exact ih hrest
  · intro t f
    refine ⟨?_, ?_, rfl⟩
    · intro hle
      simp [onAppendWake, hle]
    · intro hle
      simp [onAppendWake, hle]
  · intro v tl st t h
    simp [onSeek, h]

/-- Witness for C4: a pending seek at time 7 is answered exactly once
by an append run containing a frame at time 10, and a viewer with a
stale pending seek at 3 who re-seeks to 7 on an empty running timeline
keeps only the latest waiter. -/
theorem pending_seek_exactly_one_update_witness :
    countUpdates (runAppends ⟨some 7⟩
      [⟨5, 8, EmotionLabel.energised, 0⟩,
       ⟨10, 2, EmotionLabel.flatDisengaged, 0⟩]).2 = 1 ∧
    onSeek ⟨some 3⟩ ⟨[]⟩ BuilderState.running 7 =
      (⟨some 7⟩, [HubEvent.statusMsg]) := by
  constructor
  · exact pending_seek_exactly_one_update.1 7
      [⟨5, 8, EmotionLabel.energised, 0⟩, ⟨10, 2, EmotionLabel.flatDisengaged, 0⟩]
      ⟨⟨10, 2, EmotionLabel.flatDisengaged, 0⟩, by simp, by norm_num⟩
  · exact pending_seek_exactly_one_update.2.2.2 ⟨some 3⟩ ⟨[]⟩
      BuilderState.running 7 (by simp [Timeline.frameAt, BuilderState.isTerminal])

/-- From a terminal builder state, retried exhaustion signals never
invoke the aggregator. -/
theorem runExhausted_terminal_zero (n : Nat) :
    ∀ s : SessionAgg, s.builderState ≠ BuilderState.running →
      (runExhausted s n).2 = 0 := by
  induction n with
  | zero => intro s _; rfl
  | succ m ih =>
      intro s hs
      simp only [runExhausted, onSourceExhausted, if_neg hs]
      simpa using ih s hs

/-- C6: starting from a running builder that has not yet invoked the
aggregator, any number of exhaustion signals (including retries by the
builder) invokes `BatchAggregator.onTimelineComplete` at most once, and
exactly once as soon as at least one signal arrives; and an invocation
happens only at the step performing the builder's `Running → Completed`
transition, never from an already-terminal state. -/
theorem aggregator_invoked_at_most_once :
    (∀ n : Nat, (runExhausted ⟨BuilderState.running, false⟩ n).2 ≤ 1) ∧
    (∀ n : Nat, 1 ≤ n → (runExhausted ⟨BuilderState.running, false⟩ n).2 = 1) ∧
    (∀ s : SessionAgg, (onSourceExhausted s).2 = true →
      s.builderState = BuilderState.running ∧
      (onSourceExhausted s).1.builderState = BuilderState.completed ∧
      (onSourceExhausted s).1.aggregatorInvoked = true) ∧
    (∀ (s : SessionAgg) (n : Nat), s.builderState ≠ BuilderState.running →
      (runExhausted s n).2 = 0) := by
  have hone : ∀ n : Nat, 1 ≤ n →
      (runExhausted ⟨BuilderState.running, false⟩ n).2 = 1 := by
    intro n hn
    cases n with
    | zero => simp at hn
    | succ m =>
        have h0 := runExhausted_terminal_zero m ⟨BuilderState.completed, true⟩ (by simp)
        simp [runExhausted, onSourceExhausted, h0]
  refine ⟨?_, hone, ?_, fun s n hs => runExhausted_terminal_zero n s hs⟩
  · intro n
    cases n with
    | zero => simp [runExhausted]
    | succ m => rw [hone (m + 1) (Nat.succ_le_succ (Nat.zero_le m))]
  · intro s h
    unfold onSourceExhausted at h ⊢
    by_cases hs : s.builderState = BuilderState.running
    · simp [hs]
    · rw [if_neg hs] at h
      simp at h

/-- Witness for C6: three signals (one completion plus two retries)
yield exactly one aggregator invocation. -/
theorem aggregator_invoked_at_most_once_witness :
    (runExhausted ⟨BuilderState.running, false⟩ 3).2 = 1 ∧
    (runExhausted ⟨BuilderState.completed, true⟩ 2).2 = 0 :=
  ⟨aggregator_invoked_at_most_once.2.1 3 (by norm_num),
    aggregator_invoked_at_most_once.2.2.2 ⟨BuilderState.completed, true⟩ 2
      (by simp)⟩

end Moodfloo
